import Mathlib

/-!
Verification development for the tlauncher-compose launcher.

The repository ships one source file, `gui.py` (the Tkinter front end).
Its behaviour is embedded below together with models of the core modules
it imports (`core.detector`, `core.validator`, `core.composer`,
`core.container`), which are not part of the given sources and are
therefore modelled from the specification.
-/

/-- Detection result: the four axes returned by `detect_system`, as used by
`self.detected` in `gui.py` (accessed as a mapping with the four keys
`runtime`, `gpu`, `display`, `audio`). -/
structure Detected where
  runtime : String
  gpu : String
  display : String
  audio : String
deriving DecidableEq, Repr

/-- The four Tk `StringVar` selector values (`runtime_var`, `gpu_var`,
`display_var`, `audio_var`) of the configuration combo boxes. -/
structure UIState where
  runtime : String
  gpu : String
  display : String
  audio : String
deriving DecidableEq, Repr

/-- A config dict as produced by `_gather_config` and consumed by the core:
four string fields plus `auto_xhost`. -/
structure GatheredConfig where
  runtime : String
  gpu : String
  display : String
  audio : String
  auto_xhost : Bool
deriving DecidableEq, Repr

/-- A loaded/merged config as held in `self.config` in `gui.py`: each field
may be missing (`none`, Python `dict.get` returning `None`) or present.
Python truthiness of `config.get(key)` is `none` or `some ""` being falsy. -/
structure LoadedConfig where
  runtime : Option String
  gpu : Option String
  display : Option String
  audio : Option String
deriving DecidableEq, Repr

/-- One selector of `_update_ui_from_config` (gui.py:296-299):
`'auto' if not self.config.get(f) or self.config[f] == self.detected[f]
else self.config[f]`. -/
def update_ui_field (c : Option String) (det : String) : String :=
  match c with
  | none => "auto"
  | some v => if v = "" then "auto" else if v = det then "auto" else v

/-- `_update_ui_from_config` (gui.py:294-299): sets the four selector
variables from the current config and the detection result. -/
def update_ui_from_config (c : LoadedConfig) (det : Detected) : UIState :=
  { runtime := update_ui_field c.runtime det.runtime
    gpu := update_ui_field c.gpu det.gpu
    display := update_ui_field c.display det.display
    audio := update_ui_field c.audio det.audio }

/-- One field of `_gather_config` (gui.py:316-319):
`self.detected[f] if var == 'auto' else var`. -/
def gather_field (sel det : String) : String :=
  if sel = "auto" then det else sel

/-- `_gather_config` (gui.py:307-321): reads the four selectors, replaces
`'auto'` by the detected value, and always sets `auto_xhost` to `True`. -/
def gather_config (ui : UIState) (det : Detected) : GatheredConfig :=
  { runtime := gather_field ui.runtime det.runtime
    gpu := gather_field ui.gpu det.gpu
    display := gather_field ui.display det.display
    audio := gather_field ui.audio det.audio
    auto_xhost := true }

/-- `save_configuration`'s `save_data` (gui.py:500-507): each field is the
empty string when the selector reads `'auto'`, otherwise the gathered
value; `auto_xhost` is always `True`. -/
def save_configuration (ui : UIState) (det : Detected) : GatheredConfig :=
  let config := gather_config ui det
  { runtime := if ui.runtime = "auto" then "" else config.runtime
    gpu := if ui.gpu = "auto" then "" else config.gpu
    display := if ui.display = "auto" then "" else config.display
    audio := if ui.audio = "auto" then "" else config.audio
    auto_xhost := true }

/-! ## Spec-modelled core: detector -/

/-- Host probe outcomes feeding detection (binary lookups, kernel module
presence, session-type environment variable, sound-server socket). -/
structure HostProbe where
  podmanOnPath : Bool
  dockerOnPath : Bool
  nvidiaModule : Bool
  amdModule : Bool
  sessionType : String
  pulseSocket : Bool
deriving DecidableEq, Repr

/-- Modelled from the spec: `core.detector.detect_system` is not in `src/`.
Per spec section 4.1 it prefers `podman` over `docker` over an explicit
`none` for runtime, classifies GPU as `nvidia`, `amd` or `none` from
kernel-module presence, display as `x11`, `wayland` or `none` from the
session-type signal, and audio as `pulseaudio` or `none` from the
sound-server socket; every probe degrades to a defined fallback and the
call is total (never signals an error). -/
def detect_system (h : HostProbe) : Detected :=
  { runtime := if h.podmanOnPath then "podman" else if h.dockerOnPath then "docker" else "none"
    gpu := if h.nvidiaModule then "nvidia" else if h.amdModule then "amd" else "none"
    display := if h.sessionType = "x11" then "x11" else if h.sessionType = "wayland" then "wayland" else "none"
    audio := if h.pulseSocket then "pulseaudio" else "none" }

/-! ## Spec-modelled core: validator -/

/-- Issue severity per the spec data model. -/
inductive Severity where
  | Blocking
  | Advisory
deriving DecidableEq, Repr

/-- `ValidationIssue` per the spec data model. -/
structure ValidationIssue where
  message : String
  severity : Severity
  fix_hint : Option String
deriving DecidableEq, Repr

/-- `ValidationIssue.is_blocking` as used by `gui.py` (line 334). -/
def ValidationIssue.is_blocking (i : ValidationIssue) : Bool :=
  match i.severity with
  | Severity.Blocking => true
  | Severity.Advisory => false

/-- Host facts consulted by validation and the xhost grant call. -/
structure HostEnv where
  runtimeOnPath : String → Bool
  nvidiaToolkit : Bool
  x11Socket : Bool
  waylandSocket : Bool
  pulseSocket : Bool
  xhostGrantOk : Bool

/-- Modelled from the spec: `core.validator.validate_system` is not in
`src/`. Per spec section 4.2 it runs five checks, each producing zero or
one issue, in order: runtime binary resolvable (Blocking, with fix hint),
NVIDIA container integration when `gpu == nvidia` (Blocking), X11 socket
when `display == x11` (Blocking), Wayland handle when `display == wayland`
(Blocking), sound-server socket when `audio == pulseaudio` (Advisory).
The overall flag is computed from the blocking checks. -/
def validate_system (c : GatheredConfig) (env : HostEnv) : Bool × List ValidationIssue :=
  let runtimeOk := env.runtimeOnPath c.runtime
  let gpuOk := c.gpu != "nvidia" || env.nvidiaToolkit
  let x11Ok := c.display != "x11" || env.x11Socket
  let waylandOk := c.display != "wayland" || env.waylandSocket
  let audioOk := c.audio != "pulseaudio" || env.pulseSocket
  let issues :=
    (if runtimeOk then [] else
      [ValidationIssue.mk ("Runtime binary " ++ c.runtime ++ " not found") Severity.Blocking
        (some ("Install " ++ c.runtime))])
    ++ (if gpuOk then [] else
      [ValidationIssue.mk "NVIDIA container toolkit not available" Severity.Blocking
        (some "Install the NVIDIA container toolkit")])
    ++ (if x11Ok then [] else
      [ValidationIssue.mk "X11 socket not reachable" Severity.Blocking
        (some "Ensure an X server is running")])
    ++ (if waylandOk then [] else
      [ValidationIssue.mk "Wayland display not reachable" Severity.Blocking
        (some "Ensure a Wayland compositor is running")])
    ++ (if audioOk then [] else
      [ValidationIssue.mk "PulseAudio socket not reachable" Severity.Advisory none])
  (runtimeOk && gpuOk && x11Ok && waylandOk, issues)

/-- Modelled from the spec: `core.validator.run_xhost_if_needed` is not in
`src/`. Per spec section 4.2 it is only meaningful when `display == x11`
and `auto_xhost` is set, performs the external grant call and reports its
outcome only as a boolean; as a total function it never raises. -/
def run_xhost_if_needed (env : HostEnv) (c : GatheredConfig) : Bool :=
  if c.display = "x11" && c.auto_xhost then env.xhostGrantOk else true

/-! ## Spec-modelled core: composer and container spawn -/

/-- Modelled from the spec: `core.composer.get_command_preview` is not in
`src/`. Per spec section 4.3 it is a pure rendering of the runtime
invocation: runtime binary, action subcommand, display socket binding and
forwarded variable, audio socket binding, and GPU device flags when
`gpu != none`. -/
def get_command_preview (c : GatheredConfig) (action : String) : String :=
  c.runtime ++ " compose " ++ action
    ++ (if c.display = "x11" then
          " -v /tmp/.X11-unix:/tmp/.X11-unix -e DISPLAY" else "")
    ++ (if c.display = "wayland" then
          " -v XDG_RUNTIME_DIR/WAYLAND_DISPLAY -e WAYLAND_DISPLAY" else "")
    ++ (if c.audio = "pulseaudio" then
          " -v /run/user/pulse:/run/user/pulse -e PULSE_SERVER" else "")
    ++ (if c.gpu != "none" then " --device /dev/dri" else "")

/-- Modelled from the spec: `core.container.start_container_async` is not in
`src/`. Per spec section 4.3 the manager obtains its argument vector from
the same rendering path as the preview, so the spawned command for the
`up` action is exactly the composer's rendering. This function gives the
command line the spawn would execute. -/
def start_container_async (c : GatheredConfig) : String :=
  get_command_preview c "up"

/-! ## The GUI start flow -/

/-- Observable outcome of one run of the `start_minecraft` handler
(gui.py:323-399): whether `run_xhost_if_needed` was called and what it
returned, the command string logged at line 357, the config handed to
`start_container_async` at line 396, and the command that call spawns. -/
structure StartResult where
  xhostCalled : Bool
  xhostResult : Option Bool
  loggedCommand : Option String
  spawnedConfig : Option GatheredConfig
  spawnedCommand : Option String
deriving DecidableEq, Repr

/-- `start_minecraft` (gui.py:323-399): gather the config, validate, return
immediately on failure; otherwise run xhost when `display == x11` and
`auto_xhost`, log the `up` command preview, and start the container with
the same config value. -/
def start_minecraft (ui : UIState) (det : Detected) (env : HostEnv) : StartResult :=
  let config := gather_config ui det
  let valid := (validate_system config env).1
  if valid then
    let needXhost := config.display = "x11" && config.auto_xhost
    { xhostCalled := needXhost
      xhostResult := if needXhost then some (run_xhost_if_needed env config) else none
      loggedCommand := some (get_command_preview config "up")
      spawnedConfig := some config
      spawnedCommand := some (start_container_async config) }
  else
    { xhostCalled := false
      xhostResult := none
      loggedCommand := none
      spawnedConfig := none
      spawnedCommand := none }

/-! ## Spec-modelled core: ContainerManager lifecycle -/

/-- `ContainerState` per the spec data model. -/
inductive ContainerState where
  | Idle
  | Starting
  | Running
  | Stopping
  | Stopped
  | Failed
deriving DecidableEq, Repr

/-- A `ContainerManager` instance: its config and its owned state. A fresh
manager (`ContainerManager(config)` in Python) starts in `Idle`. -/
structure ContainerManager where
  config : GatheredConfig
  state : ContainerState
deriving DecidableEq, Repr

/-- `ContainerManager(config)` constructor: a fresh manager in `Idle`. -/
def ContainerManager.new (c : GatheredConfig) : ContainerManager :=
  { config := c, state := ContainerState.Idle }

/-- Outcome of a `stop()` call: the returned boolean, whether any process
interaction (graceful request or forced termination) took place, and the
manager afterwards. -/
structure StopResult where
  result : Bool
  interaction : Bool
  manager : ContainerManager
deriving DecidableEq, Repr

/-- Modelled from the spec: `ContainerManager.stop` is not in `src/`. Per
spec section 4.4 it is a no-op returning true with no process interaction
when the state is already `Idle` or `Stopped`; otherwise it sends a
graceful termination request, escalates on timeout, and returns true iff
termination is confirmed by the end of the call (`termConfirmed` stands
for that host outcome), moving the state to `Stopped` on confirmation. -/
def ContainerManager.stop (m : ContainerManager) (termConfirmed : Bool) : StopResult :=
  if m.state = ContainerState.Idle ∨ m.state = ContainerState.Stopped then
    { result := true, interaction := false, manager := m }
  else
    { result := termConfirmed
      interaction := true
      manager := if termConfirmed then { m with state := ContainerState.Stopped } else m }

/-- Outcome of a `restart()` call: the returned boolean, whether the start
path was entered, and the manager afterwards. -/
structure RestartResult where
  result : Bool
  startAttempted : Bool
  manager : ContainerManager
deriving DecidableEq, Repr

/-- Modelled from the spec: `ContainerManager.restart` is not in `src/`.
Per spec section 4.4 it performs `stop()` then a blocking start; if
`stop()` returns false it returns false immediately and does not attempt
the start (`startOk` stands for the outcome of the blocking start). -/
def ContainerManager.restart (m : ContainerManager) (termConfirmed startOk : Bool) : RestartResult :=
  let s := m.stop termConfirmed
  if s.result then
    { result := startOk
      startAttempted := true
      manager := { s.manager with
        state := if startOk then ContainerState.Running else ContainerState.Failed } }
  else
    { result := false, startAttempted := false, manager := s.manager }

/-- `stop_worker` inside `stop_minecraft` (gui.py:410-412): constructs a
fresh `ContainerManager` from the gathered config and calls `stop()`. -/
def stop_worker (ui : UIState) (det : Detected) (termConfirmed : Bool) : StopResult :=
  (ContainerManager.new (gather_config ui det)).stop termConfirmed

/-- The three callback channels of `start_async` as lifecycle events. -/
inductive LifecycleEvent where
  | output (line : String)
  | started
  | completed (success : Bool)
deriving DecidableEq, Repr

/-- Whether an event is a `started_callback` firing. -/
def LifecycleEvent.isStarted : LifecycleEvent → Bool
  | LifecycleEvent.started => true
  | _ => false

/-- Whether an event is a `completion_callback` firing. -/
def LifecycleEvent.isCompleted : LifecycleEvent → Bool
  | LifecycleEvent.completed _ => true
  | _ => false

/-- Modelled from the spec: the `start_async` worker of
`core.container` is not in `src/`. Per spec section 4.4 the worker
delivers each output line in order, fires `started_callback` exactly once
on the first line matching the configurable ready marker (`ready`), and
when the child exits fires `completion_callback(success)` exactly once,
with `success` true iff the exit status indicates normal termination.
`startedAlready` tracks whether the marker has already matched; a session
begins with it false. The result is the ordered callback trace of one
`start_async` invocation whose child produced `lines` and exited with
status-success `exitSuccess`. -/
def worker_events (ready : String → Bool) (startedAlready : Bool)
    (lines : List String) (exitSuccess : Bool) : List LifecycleEvent :=
  match lines with
  | [] => [LifecycleEvent.completed exitSuccess]
  | l :: rest =>
    if !startedAlready && ready l then
      LifecycleEvent.output l :: LifecycleEvent.started ::
        worker_events ready true rest exitSuccess
    else
      LifecycleEvent.output l :: worker_events ready startedAlready rest exitSuccess

/-! ## Claims -/

/-- C2: for every UI state, provided detection returned explicit (never
`auto`) values on all four axes, no field of the config built by
`_gather_config` is `auto`, and each field whose selector reads `auto` is
replaced by the corresponding detected value. -/
theorem C2_no_auto_crosses_boundary (ui : UIState) (det : Detected)
    (hr : det.runtime ≠ "auto") (hg : det.gpu ≠ "auto")
    (hd : det.display ≠ "auto") (ha : det.audio ≠ "auto") :
    (gather_config ui det).runtime ≠ "auto"
    ∧ (gather_config ui det).gpu ≠ "auto"
    ∧ (gather_config ui det).display ≠ "auto"
    ∧ (gather_config ui det).audio ≠ "auto"
    ∧ (ui.runtime = "auto" → (gather_config ui det).runtime = det.runtime)
    ∧ (ui.gpu = "auto" → (gather_config ui det).gpu = det.gpu)
    ∧ (ui.display = "auto" → (gather_config ui det).display = det.display)
    ∧ (ui.audio = "auto" → (gather_config ui det).audio = det.audio) := by
  unfold gather_config gather_field
  by_cases h1 : ui.runtime = "auto" <;> by_cases h2 : ui.gpu = "auto" <;>
    by_cases h3 : ui.display = "auto" <;> by_cases h4 : ui.audio = "auto" <;>
    simp_all

/-- C2 witness: a concrete UI state and explicit detection result. -/
theorem C2_witness :
    (gather_config (UIState.mk "auto" "nvidia" "auto" "auto")
        (Detected.mk "podman" "none" "x11" "pulseaudio")).runtime ≠ "auto"
    ∧ (gather_config (UIState.mk "auto" "nvidia" "auto" "auto")
        (Detected.mk "podman" "none" "x11" "pulseaudio")).gpu ≠ "auto"
    ∧ (gather_config (UIState.mk "auto" "nvidia" "auto" "auto")
        (Detected.mk "podman" "none" "x11" "pulseaudio")).display ≠ "auto"
    ∧ (gather_config (UIState.mk "auto" "nvidia" "auto" "auto")
        (Detected.mk "podman" "none" "x11" "pulseaudio")).audio ≠ "auto"
    ∧ ((UIState.mk "auto" "nvidia" "auto" "auto").runtime = "auto" →
        (gather_config (UIState.mk "auto" "nvidia" "auto" "auto")
          (Detected.mk "podman" "none" "x11" "pulseaudio")).runtime
          = (Detected.mk "podman" "none" "x11" "pulseaudio").runtime)
    ∧ ((UIState.mk "auto" "nvidia" "auto" "auto").gpu = "auto" →
        (gather_config (UIState.mk "auto" "nvidia" "auto" "auto")
          (Detected.mk "podman" "none" "x11" "pulseaudio")).gpu
          = (Detected.mk "podman" "none" "x11" "pulseaudio").gpu)
    ∧ ((UIState.mk "auto" "nvidia" "auto" "auto").display = "auto" →
        (gather_config (UIState.mk "auto" "nvidia" "auto" "auto")
          (Detected.mk "podman" "none" "x11" "pulseaudio")).display
          = (Detected.mk "podman" "none" "x11" "pulseaudio").display)
    ∧ ((UIState.mk "auto" "nvidia" "auto" "auto").audio = "auto" →
        (gather_config (UIState.mk "auto" "nvidia" "auto" "auto")
          (Detected.mk "podman" "none" "x11" "pulseaudio")).audio
          = (Detected.mk "podman" "none" "x11" "pulseaudio").audio) :=
  C2_no_auto_crosses_boundary (UIState.mk "auto" "nvidia" "auto" "auto")
    (Detected.mk "podman" "none" "x11" "pulseaudio")
    (by decide) (by decide) (by decide) (by decide)

/-- C5: `stop()` on a manager in `Idle` or `Stopped` is an idempotent no-op:
it returns true, performs no process interaction and leaves the manager
unchanged; in particular the GUI stop handler, which builds a fresh
manager and calls `stop()` on it, receives true from that call. -/
theorem C5_stop_idempotent_noop (m : ContainerManager) (tc : Bool)
    (ui : UIState) (det : Detected) (tc2 : Bool)
    (h : m.state = ContainerState.Idle ∨ m.state = ContainerState.Stopped) :
    (m.stop tc).result = true
    ∧ (m.stop tc).interaction = false
    ∧ (m.stop tc).manager = m
    ∧ (stop_worker ui det tc2).result = true
    ∧ (stop_worker ui det tc2).interaction = false := by
  rcases h with h | h <;>
    simp [ContainerManager.stop, stop_worker, ContainerManager.new, h]

/-- C5 witness: a fresh manager and a concrete stop invocation. -/
theorem C5_witness :
    ((ContainerManager.new (GatheredConfig.mk "podman" "none" "x11" "pulseaudio" true)).stop false).result = true
    ∧ ((ContainerManager.new (GatheredConfig.mk "podman" "none" "x11" "pulseaudio" true)).stop false).interaction = false
    ∧ ((ContainerManager.new (GatheredConfig.mk "podman" "none" "x11" "pulseaudio" true)).stop false).manager
        = ContainerManager.new (GatheredConfig.mk "podman" "none" "x11" "pulseaudio" true)
    ∧ (stop_worker (UIState.mk "auto" "auto" "auto" "auto")
        (Detected.mk "podman" "none" "x11" "pulseaudio") true).result = true
    ∧ (stop_worker (UIState.mk "auto" "auto" "auto" "auto")
        (Detected.mk "podman" "none" "x11" "pulseaudio") true).interaction = false :=
  C5_stop_idempotent_noop
    (ContainerManager.new (GatheredConfig.mk "podman" "none" "x11" "pulseaudio" true)) false
    (UIState.mk "auto" "auto" "auto" "auto")
    (Detected.mk "podman" "none" "x11" "pulseaudio") true
    (Or.inl rfl)

/-- C6: when the underlying `stop()` reports failure, `restart` returns
false immediately, never enters the start path, and leaves the manager
exactly as `stop()` left it. -/
theorem C6_restart_stop_failure (m : ContainerManager) (tc startOk : Bool)
    (h : (m.stop tc).result = false) :
    (m.restart tc startOk).result = false
    ∧ (m.restart tc startOk).startAttempted = false
    ∧ (m.restart tc startOk).manager = (m.stop tc).manager := by
  simp [ContainerManager.restart, h]

/-- C6 witness: a running manager whose graceful stop is not confirmed. -/
theorem C6_witness :
    ((ContainerManager.mk (GatheredConfig.mk "podman" "none" "x11" "pulseaudio" true)
        ContainerState.Running).restart false true).result = false
    ∧ ((ContainerManager.mk (GatheredConfig.mk "podman" "none" "x11" "pulseaudio" true)
        ContainerState.Running).restart false true).startAttempted = false
    ∧ ((ContainerManager.mk (GatheredConfig.mk "podman" "none" "x11" "pulseaudio" true)
        ContainerState.Running).restart false true).manager
        = ((ContainerManager.mk (GatheredConfig.mk "podman" "none" "x11" "pulseaudio" true)
            ContainerState.Running).stop false).manager :=
  C6_restart_stop_failure
    (ContainerManager.mk (GatheredConfig.mk "podman" "none" "x11" "pulseaudio" true)
      ContainerState.Running) false true (by decide)

/-- C8: detection is total and every axis of its result is a non-empty
explicit value drawn from the documented set, never `auto` and never
empty, so the four unguarded key accesses in `_detect_and_load` always
find a value. -/
theorem C8_detect_total_explicit (h : HostProbe) :
    ((detect_system h).runtime ≠ "" ∧ (detect_system h).runtime ≠ "auto"
      ∧ (detect_system h).runtime ∈ ["podman", "docker", "none"])
    ∧ ((detect_system h).gpu ≠ "" ∧ (detect_system h).gpu ≠ "auto"
      ∧ (detect_system h).gpu ∈ ["nvidia", "amd", "none"])
    ∧ ((detect_system h).display ≠ "" ∧ (detect_system h).display ≠ "auto"
      ∧ (detect_system h).display ∈ ["x11", "wayland", "none"])
    ∧ ((detect_system h).audio ≠ "" ∧ (detect_system h).audio ≠ "auto"
      ∧ (detect_system h).audio ∈ ["pulseaudio", "none"]) := by
  unfold detect_system
  refine ⟨⟨?_, ?_, ?_⟩, ⟨?_, ?_, ?_⟩, ⟨?_, ?_, ?_⟩, ⟨?_, ?_, ?_⟩⟩ <;>
    (simp only []; split <;> simp_all) <;> split <;> simp_all

/-- C9: every config `_gather_config` hands to the core and every config
`save_configuration` persists carries `auto_xhost = true`; the GUI offers
no path that sets it to false. -/
theorem C9_auto_xhost_always_true (ui : UIState) (det : Detected) :
    (gather_config ui det).auto_xhost = true
    ∧ (save_configuration ui det).auto_xhost = true :=
  ⟨rfl, rfl⟩

/-- C1: the previewed and spawned commands never diverge.
`get_command_preview` is deterministic (equal inputs give an identical
string), the command `start_minecraft` logs is the preview of exactly the
config value it hands to the container start, and the command that start
spawns equals the logged preview. -/
theorem C1_preview_equals_spawn (c c2 : GatheredConfig) (a a2 : String)
    (ui : UIState) (det : Detected) (env : HostEnv)
    (hc : c = c2) (ha : a = a2) :
    get_command_preview c a = get_command_preview c2 a2
    ∧ (start_minecraft ui det env).loggedCommand
        = Option.map (fun cfg => get_command_preview cfg "up")
            (start_minecraft ui det env).spawnedConfig
    ∧ (start_minecraft ui det env).spawnedCommand
        = (start_minecraft ui det env).loggedCommand := by
  subst hc; subst ha
  refine ⟨rfl, ?_, ?_⟩ <;>
    (simp only [start_minecraft]; split <;> simp [start_container_async])

/-- C1 witness: concrete preview inputs and a concrete start flow. -/
theorem C1_witness :
    get_command_preview (GatheredConfig.mk "podman" "none" "x11" "pulseaudio" true) "up"
      = get_command_preview (GatheredConfig.mk "podman" "none" "x11" "pulseaudio" true) "up"
    ∧ (start_minecraft (UIState.mk "auto" "auto" "auto" "auto")
        (Detected.mk "podman" "none" "x11" "pulseaudio")
        (HostEnv.mk (fun _ => true) true true true true true)).loggedCommand
        = Option.map (fun cfg => get_command_preview cfg "up")
            (start_minecraft (UIState.mk "auto" "auto" "auto" "auto")
              (Detected.mk "podman" "none" "x11" "pulseaudio")
              (HostEnv.mk (fun _ => true) true true true true true)).spawnedConfig
    ∧ (start_minecraft (UIState.mk "auto" "auto" "auto" "auto")
        (Detected.mk "podman" "none" "x11" "pulseaudio")
        (HostEnv.mk (fun _ => true) true true true true true)).spawnedCommand
        = (start_minecraft (UIState.mk "auto" "auto" "auto" "auto")
            (Detected.mk "podman" "none" "x11" "pulseaudio")
            (HostEnv.mk (fun _ => true) true true true true true)).loggedCommand :=
  C1_preview_equals_spawn
    (GatheredConfig.mk "podman" "none" "x11" "pulseaudio" true)
    (GatheredConfig.mk "podman" "none" "x11" "pulseaudio" true) "up" "up"
    (UIState.mk "auto" "auto" "auto" "auto")
    (Detected.mk "podman" "none" "x11" "pulseaudio")
    (HostEnv.mk (fun _ => true) true true true true true) rfl rfl

/-- C4: validation gates starting. `validate_system` reports overall
validity exactly when no returned issue is blocking, and when validation
of the gathered config fails, `start_minecraft` performs no xhost call,
logs no command preview and spawns nothing. -/
theorem C4_validation_gates_start (c : GatheredConfig) (env : HostEnv)
    (ui : UIState) (det : Detected)
    (hinvalid : (validate_system (gather_config ui det) env).1 = false) :
    ((validate_system c env).1 = true ↔
      ∀ i ∈ (validate_system c env).2, i.is_blocking = false)
    ∧ (start_minecraft ui det env).xhostCalled = false
    ∧ (start_minecraft ui det env).xhostResult = none
    ∧ (start_minecraft ui det env).loggedCommand = none
    ∧ (start_minecraft ui det env).spawnedConfig = none
    ∧ (start_minecraft ui det env).spawnedCommand = none := by
  refine ⟨?_, ?_, ?_, ?_, ?_, ?_⟩
  case refine_1 =>
    unfold validate_system
    cases h1 : env.runtimeOnPath c.runtime <;>
      cases h2 : (c.gpu != "nvidia" || env.nvidiaToolkit) <;>
      cases h3 : (c.display != "x11" || env.x11Socket) <;>
      cases h4 : (c.display != "wayland" || env.waylandSocket) <;>
      cases h5 : (c.audio != "pulseaudio" || env.pulseSocket) <;>
      simp [ValidationIssue.is_blocking]
  all_goals simp [start_minecraft, hinvalid]

/-- C4 witness: a host without any runtime binary fails validation and the
start handler does nothing. -/
theorem C4_witness :
    ((validate_system (GatheredConfig.mk "podman" "none" "x11" "pulseaudio" true)
        (HostEnv.mk (fun _ => false) false false false false false)).1 = true ↔
      ∀ i ∈ (validate_system (GatheredConfig.mk "podman" "none" "x11" "pulseaudio" true)
        (HostEnv.mk (fun _ => false) false false false false false)).2, i.is_blocking = false)
    ∧ (start_minecraft (UIState.mk "auto" "auto" "auto" "auto")
        (Detected.mk "podman" "none" "x11" "pulseaudio")
        (HostEnv.mk (fun _ => false) false false false false false)).xhostCalled = false
    ∧ (start_minecraft (UIState.mk "auto" "auto" "auto" "auto")
        (Detected.mk "podman" "none" "x11" "pulseaudio")
        (HostEnv.mk (fun _ => false) false false false false false)).xhostResult = none
    ∧ (start_minecraft (UIState.mk "auto" "auto" "auto" "auto")
        (Detected.mk "podman" "none" "x11" "pulseaudio")
        (HostEnv.mk (fun _ => false) false false false false false)).loggedCommand = none
    ∧ (start_minecraft (UIState.mk "auto" "auto" "auto" "auto")
        (Detected.mk "podman" "none" "x11" "pulseaudio")
        (HostEnv.mk (fun _ => false) false false false false false)).spawnedConfig = none
    ∧ (start_minecraft (UIState.mk "auto" "auto" "auto" "auto")
        (Detected.mk "podman" "none" "x11" "pulseaudio")
        (HostEnv.mk (fun _ => false) false false false false false)).spawnedCommand = none :=
  C4_validation_gates_start
    (GatheredConfig.mk "podman" "none" "x11" "pulseaudio" true)
    (HostEnv.mk (fun _ => false) false false false false false)
    (UIState.mk "auto" "auto" "auto" "auto")
    (Detected.mk "podman" "none" "x11" "pulseaudio") rfl

/-- C7: `run_xhost_if_needed` reports only a boolean (it is a total
function), the GUI calls it exactly when the gathered config has
`display = x11` and `auto_xhost`, and the start flow proceeds to spawn
irrespective of the grant outcome: flipping the host's grant result does
not change the spawned command. -/
theorem C7_xhost_nonfatal (ui : UIState) (det : Detected) (env : HostEnv)
    (c : GatheredConfig)
    (hvalid : (validate_system (gather_config ui det) env).1 = true) :
    (run_xhost_if_needed env c = true ∨ run_xhost_if_needed env c = false)
    ∧ (start_minecraft ui det env).xhostCalled
        = ((gather_config ui det).display = "x11" && (gather_config ui det).auto_xhost)
    ∧ (start_minecraft ui det env).spawnedCommand
        = some (start_container_async (gather_config ui det))
    ∧ (start_minecraft ui det
          (HostEnv.mk env.runtimeOnPath env.nvidiaToolkit env.x11Socket
            env.waylandSocket env.pulseSocket true)).spawnedCommand
      = (start_minecraft ui det
          (HostEnv.mk env.runtimeOnPath env.nvidiaToolkit env.x11Socket
            env.waylandSocket env.pulseSocket false)).spawnedCommand := by
  have htrue : (validate_system (gather_config ui det)
      (HostEnv.mk env.runtimeOnPath env.nvidiaToolkit env.x11Socket
        env.waylandSocket env.pulseSocket true)).1 = true := hvalid
  have hfalse : (validate_system (gather_config ui det)
      (HostEnv.mk env.runtimeOnPath env.nvidiaToolkit env.x11Socket
        env.waylandSocket env.pulseSocket false)).1 = true := hvalid
  refine ⟨?_, ?_, ?_, ?_⟩
  case refine_1 => cases hx : run_xhost_if_needed env c <;> simp
  case refine_2 => simp [start_minecraft, hvalid]
  case refine_3 => simp [start_minecraft, hvalid]
  case refine_4 => simp [start_minecraft, htrue, hfalse]

/-- C7 witness: a passing validation on a concrete X11 host. -/
theorem C7_witness :
    (run_xhost_if_needed (HostEnv.mk (fun _ => true) true true true true true)
        (GatheredConfig.mk "podman" "none" "x11" "pulseaudio" true) = true
      ∨ run_xhost_if_needed (HostEnv.mk (fun _ => true) true true true true true)
        (GatheredConfig.mk "podman" "none" "x11" "pulseaudio" true) = false)
    ∧ (start_minecraft (UIState.mk "auto" "auto" "auto" "auto")
        (Detected.mk "podman" "none" "x11" "pulseaudio")
        (HostEnv.mk (fun _ => true) true true true true true)).xhostCalled
        = ((gather_config (UIState.mk "auto" "auto" "auto" "auto")
            (Detected.mk "podman" "none" "x11" "pulseaudio")).display = "x11"
          && (gather_config (UIState.mk "auto" "auto" "auto" "auto")
            (Detected.mk "podman" "none" "x11" "pulseaudio")).auto_xhost)
    ∧ (start_minecraft (UIState.mk "auto" "auto" "auto" "auto")
        (Detected.mk "podman" "none" "x11" "pulseaudio")
        (HostEnv.mk (fun _ => true) true true true true true)).spawnedCommand
        = some (start_container_async (gather_config (UIState.mk "auto" "auto" "auto" "auto")
            (Detected.mk "podman" "none" "x11" "pulseaudio")))
    ∧ (start_minecraft (UIState.mk "auto" "auto" "auto" "auto")
        (Detected.mk "podman" "none" "x11" "pulseaudio")
        (HostEnv.mk (fun _ => true) true true true true true)).spawnedCommand
      = (start_minecraft (UIState.mk "auto" "auto" "auto" "auto")
        (Detected.mk "podman" "none" "x11" "pulseaudio")
        (HostEnv.mk (fun _ => true) true true true true false)).spawnedCommand :=
  C7_xhost_nonfatal (UIState.mk "auto" "auto" "auto" "auto")
    (Detected.mk "podman" "none" "x11" "pulseaudio")
    (HostEnv.mk (fun _ => true) true true true true true)
    (GatheredConfig.mk "podman" "none" "x11" "pulseaudio" true) rfl

/-- Shape of one worker callback trace: the terminal completion event
carries the exit status and closes the trace; before it there is no other
completion and at most one start (none when the marker already fired). -/
theorem worker_events_shape (ready : String → Bool) (startedAlready : Bool)
    (lines : List String) (exitSuccess : Bool) :
    ∃ pre, worker_events ready startedAlready lines exitSuccess
        = pre ++ [LifecycleEvent.completed exitSuccess]
      ∧ pre.countP LifecycleEvent.isCompleted = 0
      ∧ pre.countP LifecycleEvent.isStarted ≤ (if startedAlready then 0 else 1) := by
  induction lines generalizing startedAlready with
  | nil =>
    exact ⟨[], rfl, rfl, by simp⟩
  | cons l rest ih =>
    by_cases hm : (!startedAlready && ready l) = true
    · obtain ⟨pre, heq, hc, hs⟩ := ih true
      have hstarted : startedAlready = false := by
        cases startedAlready <;> simp_all
      refine ⟨LifecycleEvent.output l :: LifecycleEvent.started :: pre, ?_, ?_, ?_⟩
      · simp [worker_events, hm, heq]
      · simp [List.countP_cons, LifecycleEvent.isCompleted, hc]
      · have hs0 : pre.countP LifecycleEvent.isStarted = 0 := by
          simpa using hs
        simp [List.countP_cons, LifecycleEvent.isStarted, hs0, hstarted]
    · obtain ⟨pre, heq, hc, hs⟩ := ih startedAlready
      refine ⟨LifecycleEvent.output l :: pre, ?_, ?_, ?_⟩
      · simp [worker_events, hm, heq]
      · simp [List.countP_cons, LifecycleEvent.isCompleted, hc]
      · simpa [List.countP_cons, LifecycleEvent.isStarted] using hs

/-- C3: for every session trace of one `start_async` invocation whose child
exited, the completion callback fires exactly once, as the final event,
carrying success exactly when the exit status was a normal termination;
the started callback fires at most once and only strictly before the
completion. -/
theorem C3_callback_discipline (ready : String → Bool)
    (lines : List String) (exitSuccess : Bool) :
    (worker_events ready false lines exitSuccess).countP LifecycleEvent.isCompleted = 1
    ∧ ∃ pre, worker_events ready false lines exitSuccess
          = pre ++ [LifecycleEvent.completed exitSuccess]
        ∧ pre.countP LifecycleEvent.isCompleted = 0
        ∧ pre.countP LifecycleEvent.isStarted ≤ 1 := by
  obtain ⟨pre, heq, hc, hs⟩ := worker_events_shape ready false lines exitSuccess
  constructor
  · rw [heq]
    simp [List.countP_append, hc, LifecycleEvent.isCompleted]
  · exact ⟨pre, heq, hc, by simpa using hs⟩

/-- Field-level behaviour of selector update, gather and save: the selector
reads `auto` exactly on falsy or detected-equal config values; composing
gather after update maps falsy, detected-equal and the literal `auto`
values to the detected value and keeps any other value; the saved field is
empty in exactly those collapsed cases. -/
theorem update_gather_save_field (c : Option String) (det : String) :
    update_ui_field c det
      = (if c = none ∨ c = some "" ∨ c = some det then "auto" else c.getD "")
    ∧ gather_field (update_ui_field c det) det
      = (if c = none ∨ c = some "" ∨ c = some det ∨ c = some "auto"
          then det else c.getD "")
    ∧ (if update_ui_field c det = "auto" then ""
        else gather_field (update_ui_field c det) det)
      = (if c = none ∨ c = some "" ∨ c = some det ∨ c = some "auto"
          then "" else c.getD "") := by
  rcases c with _ | v
  · simp [update_ui_field, gather_field]
  · by_cases h1 : v = "" <;> by_cases h2 : v = det <;> by_cases h3 : v = "auto" <;>
      simp_all [update_ui_field, gather_field]

/-- C10 counterexample: the claim predicts that a config value that is
neither empty, missing nor equal to the detected value round-trips to
itself, but the literal value `auto` does not: with detected runtime
`podman` and configured runtime `auto`, the round trip yields `podman`,
not `auto`. -/
theorem C10_counterexample :
    ¬ ((some "auto" : Option String) = none
        ∨ (some "auto" : Option String) = some ""
        ∨ (some "auto" : Option String) = some "podman")
    ∧ (gather_config
        (update_ui_from_config
          (LoadedConfig.mk (some "auto") none none none)
          (Detected.mk "podman" "none" "x11" "pulseaudio"))
        (Detected.mk "podman" "none" "x11" "pulseaudio")).runtime = "podman"
    ∧ ("podman" : String) ≠ "auto" := by
  refine ⟨by simp, rfl, by simp⟩

/-- C10 amended: the selector shows `auto` exactly when the config value is
missing, empty or equal to the detected value; the round trip of
`_gather_config` after `_update_ui_from_config` yields, field-wise, the
detected value when the config value is missing, empty, equal to the
detected value, or the literal string `auto`, and the config value itself
otherwise; `save_configuration` persists the empty string in exactly the
collapsed cases and the config value otherwise. -/
theorem C10_roundtrip_amended (c : LoadedConfig) (det : Detected) :
    update_ui_from_config c det =
      UIState.mk
        (if c.runtime = none ∨ c.runtime = some "" ∨ c.runtime = some det.runtime
          then "auto" else c.runtime.getD "")
        (if c.gpu = none ∨ c.gpu = some "" ∨ c.gpu = some det.gpu
          then "auto" else c.gpu.getD "")
        (if c.display = none ∨ c.display = some "" ∨ c.display = some det.display
          then "auto" else c.display.getD "")
        (if c.audio = none ∨ c.audio = some "" ∨ c.audio = some det.audio
          then "auto" else c.audio.getD "")
    ∧ gather_config (update_ui_from_config c det) det =
      GatheredConfig.mk
        (if c.runtime = none ∨ c.runtime = some "" ∨ c.runtime = some det.runtime
            ∨ c.runtime = some "auto" then det.runtime else c.runtime.getD "")
        (if c.gpu = none ∨ c.gpu = some "" ∨ c.gpu = some det.gpu
            ∨ c.gpu = some "auto" then det.gpu else c.gpu.getD "")
        (if c.display = none ∨ c.display = some "" ∨ c.display = some det.display
            ∨ c.display = some "auto" then det.display else c.display.getD "")
        (if c.audio = none ∨ c.audio = some "" ∨ c.audio = some det.audio
            ∨ c.audio = some "auto" then det.audio else c.audio.getD "")
        true
    ∧ save_configuration (update_ui_from_config c det) det =
      GatheredConfig.mk
        (if c.runtime = none ∨ c.runtime = some "" ∨ c.runtime = some det.runtime
            ∨ c.runtime = some "auto" then "" else c.runtime.getD "")
        (if c.gpu = none ∨ c.gpu = some "" ∨ c.gpu = some det.gpu
            ∨ c.gpu = some "auto" then "" else c.gpu.getD "")
        (if c.display = none ∨ c.display = some "" ∨ c.display = some det.display
            ∨ c.display = some "auto" then "" else c.display.getD "")
        (if c.audio = none ∨ c.audio = some "" ∨ c.audio = some det.audio
            ∨ c.audio = some "auto" then "" else c.audio.getD "")
        true := by
  obtain ⟨u1, g1, s1⟩ := update_gather_save_field c.runtime det.runtime
  obtain ⟨u2, g2, s2⟩ := update_gather_save_field c.gpu det.gpu
  obtain ⟨u3, g3, s3⟩ := update_gather_save_field c.display det.display
  obtain ⟨u4, g4, s4⟩ := update_gather_save_field c.audio det.audio
  refine ⟨?_, ?_, ?_⟩
  · simp only [update_ui_from_config, UIState.mk.injEq]
    exact ⟨u1, u2, u3, u4⟩
  · simp only [update_ui_from_config, gather_config, GatheredConfig.mk.injEq]
    exact ⟨g1, g2, g3, g4, trivial⟩
  · simp only [update_ui_from_config, save_configuration, gather_config,
      GatheredConfig.mk.injEq]
    exact ⟨s1, s2, s3, s4, trivial⟩
